import Mathlib

/-!
Verification of the pdf-to-csv conversion service (`src/pdf_to_csv/app.py`)
against its natural-language specification.

The Python source is shallowly embedded: strings are modelled as `List Char`
(bytes as `List Nat`), the outbound HTTP layer (`requests.post`), the PDF
rasterizer and the two model calls are modelled as explicit oracle functions,
and the retry loop of `make_api_request_with_retry` becomes a fuel-indexed
recursion whose fuel is the number of loop iterations remaining
(`fuel = max_retries - attempt` at every top-level-reachable call).
Every sleep performed by the loop is recorded, in order, in a trace, and the
number of HTTP POSTs issued is counted, so that scheduling claims
(backoff formula, retry counts) are statements about the trace.
-/

/-- A model of the `requests` response object as used by the source: only the
status code and the `Retry-After` header are ever inspected. `retry_after`
is the raw header value (`none` when the header is absent). -/
structure ApiResponse where
  status_code : Nat
  retry_after : Option (List Char)
deriving DecidableEq, Repr

/-- Outcome of a single `requests.post` call: either a response object, or a
transport-level `requests.exceptions.RequestException` (connection error,
timeout) carrying its message. -/
inductive PostOutcome where
  | resp (r : ApiResponse)
  | netExn (e : String)
deriving DecidableEq, Repr

/-- The error a call to `make_api_request_with_retry` can raise:
`httpError s` is the `requests.exceptions.HTTPError` produced by
`response.raise_for_status()` on status `s`; `netError e` is a propagated
transport exception; `maxRetriesExn` is the generic
`Exception("Max retries reached")` raised after the loop ends. -/
inductive ReqError where
  | httpError (status : Nat)
  | netError (e : String)
  | maxRetriesExn
deriving DecidableEq, Repr

/-- Result of the wrapper: the returned response, or the raised error. -/
inductive RetryOutcome where
  | success (r : ApiResponse)
  | failure (e : ReqError)
deriving DecidableEq, Repr

/-- A full run of the wrapper: its outcome, how many HTTP POSTs it issued,
and the list of durations passed to `time.sleep`, in order. -/
structure RunResult where
  outcome : RetryOutcome
  posts : Nat
  sleeps : List ℚ
deriving DecidableEq, Repr

/-- Strip of leading and trailing whitespace, the model of Python
`str.strip()` (Lean's `Char.isWhitespace` covers the ASCII whitespace that
occurs in practice). -/
def pyStrip (l : List Char) : List Char :=
  ((l.dropWhile Char.isWhitespace).reverse.dropWhile Char.isWhitespace).reverse

/-- Auxiliary for `pyInt?`: a nonempty all-digit string read in base 10. -/
def digitsToNat (l : List Char) : Option Nat :=
  if l = [] then none
  else if l.all Char.isDigit then
    some (l.foldl (fun a c => a * 10 + (c.toNat - 48)) 0)
  else none

/-- Model of Python `int(s)` on header strings: surrounding whitespace is
ignored, an optional sign precedes one or more decimal digits; every other
input raises `ValueError`, modelled as `none`. -/
def pyInt? (l : List Char) : Option Int :=
  match pyStrip l with
  | '-' :: ds => (digitsToNat ds).map (fun n => -(n : Int))
  | '+' :: ds => (digitsToNat ds).map (fun n => (n : Int))
  | ds => (digitsToNat ds).map (fun n => (n : Int))

/-- The wait hint computed for a 429 response (`app.py` lines 35-40):
default 5, overridden by the `Retry-After` header when present and
`int`-parsable. -/
def retry_after_wait (r : ApiResponse) : Int :=
  match r.retry_after with
  | none => 5
  | some s =>
    match pyInt? s with
    | some v => v
    | none => 5

/-- `response.raise_for_status()` raises exactly for 4xx and 5xx codes. -/
def errStatus (c : Nat) : Bool := 400 ≤ c && c < 600

/-- The body of the `for attempt in range(max_retries)` loop of
`make_api_request_with_retry` (`app.py` lines 28-59). `fuel` is the number
of loop iterations remaining (`max_retries - attempt` at every reachable
call), `nposts` the POSTs issued so far and `sleeps` the sleep trace so far.
Exhausted fuel is the loop falling through to
`raise Exception("Max retries reached")`. -/
def retryGo (post : Nat → PostOutcome) (jitter : Nat → ℚ) (M : Nat) :
    Nat → Nat → Nat → List ℚ → RunResult
  | _attempt, 0, nposts, sleeps => ⟨.failure .maxRetriesExn, nposts, sleeps⟩
  | attempt, fuel + 1, nposts, sleeps =>
    match post attempt with
    | .netExn e =>
      if attempt = M - 1 then ⟨.failure (.netError e), nposts + 1, sleeps⟩
      else
        retryGo post jitter M (attempt + 1) fuel (nposts + 1)
          (sleeps ++ [(2 : ℚ) ^ attempt + jitter attempt])
    | .resp r =>
      if r.status_code = 429 then
        retryGo post jitter M (attempt + 1) fuel (nposts + 1)
          (sleeps ++ [(retry_after_wait r : ℚ) * 2 ^ attempt + jitter attempt])
      else if errStatus r.status_code then
        if attempt = M - 1 then ⟨.failure (.httpError r.status_code), nposts + 1, sleeps⟩
        else
          retryGo post jitter M (attempt + 1) fuel (nposts + 1)
            (sleeps ++ [(2 : ℚ) ^ attempt + jitter attempt])
      else ⟨.success r, nposts + 1, sleeps⟩

/-- `make_api_request_with_retry(url, headers, json_data, max_retries)`:
`post a` is the outcome `requests.post` would produce on the attempt
numbered `a` (0-based), `jitter a` the value `random.uniform(0.5, 1.5)`
drawn for the sleep of attempt `a`. -/
def make_api_request_with_retry (post : Nat → PostOutcome) (jitter : Nat → ℚ)
    (max_retries : Nat) : RunResult :=
  retryGo post jitter max_retries 0 max_retries 0 []

/-- Auxiliary scanner for `pySplit`: `acc` holds the characters of the
current piece, reversed, and a nonempty occurrence of `sep` ends the piece.
The fuel argument makes the recursion structural; it never runs out when it
starts at the length of the scanned list, since every step consumes at
least one character. -/
def pySplitAux (sep : List Char) : Nat → List Char → List Char → List (List Char)
  | _, [], acc => [acc.reverse]
  | 0, l, acc => [acc.reverse ++ l]
  | fuel + 1, c :: rest, acc =>
    if 0 < sep.length ∧ sep.isPrefixOf (c :: rest) then
      acc.reverse :: pySplitAux sep fuel ((c :: rest).drop sep.length) []
    else
      pySplitAux sep fuel rest (c :: acc)

/-- Model of Python `str.split(sep)` for a nonempty separator: the pieces
between non-overlapping, left-to-right occurrences of `sep`. -/
def pySplit (sep l : List Char) : List (List Char) :=
  pySplitAux sep l.length l []

/-- The backtick character. -/
def btChar : Char := Char.ofNat 96

/-- The opening and closing markdown fence, three backticks. -/
def bt3 : List Char := [btChar, btChar, btChar]

/-- The `csv` language tag a fence may carry. -/
def csvTag : List Char := ['c', 's', 'v']

/-- The response post-processing of `text_to_csv` (`app.py` lines 148-155):
when the completion contains a triple-backtick fence, take the piece after
the first fence, drop a leading `csv` tag, and strip whitespace; otherwise
return the completion unchanged. -/
def text_to_csv (csv_content : List Char) : List Char :=
  if bt3 <:+: csv_content then
    let c := (pySplit bt3 csv_content).getD 1 []
    let c := if csvTag.isPrefixOf c then c.drop 3 else c
    pyStrip c
  else csv_content

/-- Model of Python `sep.join(xs)`. -/
def pyJoin (sep : List Char) : List (List Char) → List Char
  | [] => []
  | [x] => x
  | x :: y :: xs => x ++ sep ++ pyJoin sep (y :: xs)

/-- The f-string header `f"--- Page {idx + 1} ---\n"` prepended to each
page's text (`app.py` line 115), for the 1-based page number `n`. -/
def pageHeader (n : Nat) : List Char :=
  ('-' :: '-' :: '-' :: ' ' :: 'P' :: 'a' :: 'g' :: 'e' :: ' ' :: []) ++
    (Nat.repr n).toList ++ (' ' :: '-' :: '-' :: '-' :: '\n' :: [])

/-- The separator `"\n\n"` used by `ocr_with_openrouter`. -/
def nlnl : List Char := ['\n', '\n']

/-- The text-assembly of `ocr_with_openrouter` (`app.py` lines 85-117) as a
function of the per-page texts returned by the vision model, in input
order: `enumerate` the pages, prepend the header of each, join with a
blank line. -/
def ocr_with_openrouter (pageTexts : List (List Char)) : List Char :=
  pyJoin nlnl ((List.enum pageTexts).map fun p => pageHeader (p.1 + 1) ++ p.2)

/-- Modelled from the spec (claim C8): the extracted-text result described
as an ordered sequence of per-page blocks, the block of the page with
1-based number `k` preceded by its header, joined into one string. Compared
against `ocr_with_openrouter` by refinement. -/
def specOcrFrom (k : Nat) : List (List Char) → List Char
  | [] => []
  | [t] => pageHeader k ++ t
  | t :: u :: ts => pageHeader k ++ t ++ nlnl ++ specOcrFrom (k + 1) (u :: ts)

/-- An uploaded multipart file: its `filename` and its raw byte content. -/
structure UploadedFile where
  filename : List Char
  content : List Nat
deriving DecidableEq, Repr

/-- The part of the Flask request the endpoint inspects: the optional
`file` form field. -/
structure HttpRequest where
  file : Option UploadedFile
deriving DecidableEq, Repr

/-- The endpoint's possible responses: a JSON `{error: msg}` body with a
status code, or a 200 CSV attachment whose body is the CSV text. -/
inductive HttpResponse where
  | errorJson (status : Nat) (msg : String)
  | csvFile (body : List Char)
deriving DecidableEq, Repr

def msgNoFile : String := "No file provided"

def msgEmptyFilename : String := "Empty filename"

def msgNotPdf : String := "File must be a PDF"

/-- The suffix `".pdf"` checked against the lowercased filename. -/
def pdfSuffix : List Char := ['.', 'p', 'd', 'f']

/-- The `/pdf-to-csv` route handler (`app.py` lines 158-203). The stages
that leave the process are oracles: `convert_from_bytes` rasterizes the PDF
bytes into images of some type `α`, `ocr` produces the extracted text, and
`to_csv` the final CSV text; `Except.error e` is the stage raising an
exception with message `e`, which the handler's `except` clause turns into
a 500 JSON error whose only detail is `e`. -/
def pdf_to_csv {α : Type} (convert_from_bytes : List Nat → Except String α)
    (ocr : α → Except String (List Char))
    (to_csv : List Char → Except String (List Char))
    (req : HttpRequest) : HttpResponse :=
  match req.file with
  | none => .errorJson 400 msgNoFile
  | some f =>
    if f.filename = [] then .errorJson 400 msgEmptyFilename
    else if pdfSuffix.isSuffixOf (f.filename.map Char.toLower) then
      match convert_from_bytes f.content with
      | .error e => .errorJson 500 e
      | .ok images =>
        match ocr images with
        | .error e => .errorJson 500 e
        | .ok text =>
          match to_csv text with
          | .error e => .errorJson 500 e
          | .ok csv_content => .csvFile csv_content
    else .errorJson 400 msgNotPdf

/-- `HttpResponse.is400error r` holds exactly on 400 JSON error responses. -/
def HttpResponse.is400error : HttpResponse → Bool
  | .errorJson 400 _ => true
  | _ => false

/-- `continues M i o` holds when the loop body, on the attempt numbered `i`
out of `M` with `requests.post` outcome `o`, reaches its next iteration:
a 429 always continues (the 429 branch ends in `continue` even on the last
attempt), while a transport exception or a `raise_for_status` error
continues only before the last attempt. -/
def continues (M i : Nat) : PostOutcome → Bool
  | .netExn _ => decide (i + 1 < M)
  | .resp r => r.status_code == 429 || (errStatus r.status_code && decide (i + 1 < M))

/-- The duration the loop body sleeps on the attempt numbered `a` when its
outcome `o` leads to another iteration: the 429 branch sleeps
`wait_time * 2 ^ attempt + jitter`, the exception branch `2 ^ attempt +
jitter`. -/
def sleepOf (jitter : Nat → ℚ) (a : Nat) : PostOutcome → ℚ
  | .netExn _ => (2 : ℚ) ^ a + jitter a
  | .resp r =>
    if r.status_code = 429 then (retry_after_wait r : ℚ) * 2 ^ a + jitter a
    else (2 : ℚ) ^ a + jitter a

/-- A fixed jitter draw, used to instantiate theorems on concrete runs. -/
def jitter1 : Nat → ℚ := fun _ => 1

/-- A transport that answers 429 with no `Retry-After` header forever. -/
def post429 : Nat → PostOutcome := fun _ => .resp ⟨429, none⟩

/-- A transport whose first attempt hits a 500 and whose later attempts
succeed with a 200. -/
def post500then200 : Nat → PostOutcome :=
  fun i => if i = 0 then .resp ⟨500, none⟩ else .resp ⟨200, none⟩

def msgTimeout : String := "timed out"

def msgReset : String := "connection reset"

/-- A transport that always fails at the network level, with a
distinguished message on the final attempt. -/
def postNetMsgs : Nat → String := fun i => if i = 4 then msgReset else msgTimeout

def postNet : Nat → PostOutcome := fun i => .netExn (postNetMsgs i)

def msgBoomRas : String := "Unable to get page count."

def msgBoomOcr : String := "KeyError: choices"

def msgBoomCsv : String := "bad completion"

/-- A rasterizer oracle that fails on every input. -/
def rasFail : List Nat → Except String Unit := fun _ => Except.error msgBoomRas

/-- A rasterizer oracle that succeeds with a unit image list. -/
def rasOk : List Nat → Except String Unit := fun _ => Except.ok ()

def ocrFail : Unit → Except String (List Char) := fun _ => Except.error msgBoomOcr

def ocrOk : Unit → Except String (List Char) := fun _ => Except.ok ['x']

def toCsvFail : List Char → Except String (List Char) := fun _ => Except.error msgBoomCsv

def toCsvOk : List Char → Except String (List Char) := fun t => Except.ok t

/-- The filename `"a.pdf"`. -/
def fnamePdf : List Char := ['a', '.', 'p', 'd', 'f']

/-- The filename `"a.PDF"`. -/
def fnameUpper : List Char := ['a', '.', 'P', 'D', 'F']

/-- The filename `"a.txt"`. -/
def fnameTxt : List Char := ['a', '.', 't', 'x', 't']

/-- A request carrying a `.pdf`-named file with empty byte content. -/
def reqEmptyContent : HttpRequest := ⟨some ⟨fnamePdf, []⟩⟩

/-! ### Behavior of the retry loop -/

theorem retryGo_exhaust (post : Nat → PostOutcome) (jitter : Nat → ℚ) (M a n : Nat)
    (s : List ℚ) : retryGo post jitter M a 0 n s = ⟨.failure .maxRetriesExn, n, s⟩ := rfl

theorem retryGo_step (post : Nat → PostOutcome) (jitter : Nat → ℚ) (M a n : Nat) (s : List ℚ)
    (haM : a < M) (h : continues M a (post a) = true) :
    retryGo post jitter M a (M - a) n s =
      retryGo post jitter M (a + 1) (M - (a + 1)) (n + 1) (s ++ [sleepOf jitter a (post a)]) := by
  have hMa : M - a = (M - (a + 1)) + 1 := by omega
  rw [hMa]
  cases hpa : post a with
  | netExn e =>
    rw [hpa] at h
    have h1 : a + 1 < M := by simpa [continues] using h
    have h2 : ¬ a = M - 1 := by omega
    simp [retryGo, hpa, h2, sleepOf]
  | resp r =>
    rw [hpa] at h
    by_cases h429 : r.status_code = 429
    · simp [retryGo, hpa, h429, sleepOf]
    · have h' : errStatus r.status_code = true ∧ a + 1 < M := by
        simpa [continues, h429] using h
      have h2 : ¬ a = M - 1 := by omega
      simp [retryGo, hpa, h429, h'.1, h2, sleepOf]

theorem retryGo_reach (post : Nat → PostOutcome) (jitter : Nat → ℚ) (M : Nat) :
    ∀ a, a ≤ M → (∀ i, i < a → continues M i (post i) = true) →
      ∃ s : List ℚ, s.length = a ∧
        make_api_request_with_retry post jitter M = retryGo post jitter M a (M - a) a s
  | 0, _, _ => ⟨[], rfl, by simp [make_api_request_with_retry]⟩
  | a + 1, haM, h => by
    obtain ⟨s, hs, hrun⟩ :=
      retryGo_reach post jitter M a (by omega) (fun i hi => h i (by omega))
    refine ⟨s ++ [sleepOf jitter a (post a)], by simp [hs], ?_⟩
    rw [hrun, retryGo_step post jitter M a a s (by omega) (h a (by omega))]

theorem retryGo_last_netExn (post : Nat → PostOutcome) (jitter : Nat → ℚ) (M a n : Nat)
    (s : List ℚ) (e : String) (haM : a = M - 1) (hpa : post a = .netExn e) :
    retryGo post jitter M a 1 n s = ⟨.failure (.netError e), n + 1, s⟩ := by
  subst haM
  simp [retryGo, hpa]

theorem retryGo_last_http (post : Nat → PostOutcome) (jitter : Nat → ℚ) (M a n : Nat)
    (s : List ℚ) (r : ApiResponse) (haM : a = M - 1) (hpa : post a = .resp r)
    (h429 : r.status_code ≠ 429) (herr : errStatus r.status_code = true) :
    retryGo post jitter M a 1 n s = ⟨.failure (.httpError r.status_code), n + 1, s⟩ := by
  subst haM
  simp [retryGo, hpa, h429, herr]

theorem retryGo_success_of (post : Nat → PostOutcome) (jitter : Nat → ℚ) (M a fuel n : Nat)
    (s : List ℚ) (r : ApiResponse) (hpa : post a = .resp r) (h429 : r.status_code ≠ 429)
    (herr : errStatus r.status_code = false) :
    retryGo post jitter M a (fuel + 1) n s = ⟨.success r, n + 1, s⟩ := by
  simp [retryGo, hpa, h429, herr]

theorem retryGo_sleeps_prefix (post : Nat → PostOutcome) (jitter : Nat → ℚ) (M : Nat) :
    ∀ fuel a n s, s <+: (retryGo post jitter M a fuel n s).sleeps := by
  intro fuel
  induction fuel with
  | zero => intro a n s; exact List.prefix_refl s
  | succ fuel ih =>
    intro a n s
    cases hpa : post a with
    | netExn e =>
      by_cases h2 : a = M - 1
      · subst h2; simp [retryGo, hpa]
      · simp only [retryGo, hpa, if_neg h2]
        exact (List.prefix_append s _).trans (ih (a + 1) (n + 1) _)
    | resp r =>
      by_cases h429 : r.status_code = 429
      · simp only [retryGo, hpa, if_pos h429]
        exact (List.prefix_append s _).trans (ih (a + 1) (n + 1) _)
      · by_cases herr : errStatus r.status_code = true
        · by_cases h2 : a = M - 1
          · subst h2; simp [retryGo, hpa, h429, herr]
          · simp only [retryGo, hpa, if_neg h429, herr, if_pos, if_neg h2]
            exact (List.prefix_append s _).trans (ih (a + 1) (n + 1) _)
        · simp [retryGo, hpa, h429, herr]

theorem retryGo_posts_ge (post : Nat → PostOutcome) (jitter : Nat → ℚ) (M : Nat) :
    ∀ fuel a n s, n ≤ (retryGo post jitter M a fuel n s).posts := by
  intro fuel
  induction fuel with
  | zero => intro a n s; exact Nat.le_refl n
  | succ fuel ih =>
    intro a n s
    cases hpa : post a with
    | netExn e =>
      by_cases h2 : a = M - 1
      · subst h2; simp [retryGo, hpa]
      · simp only [retryGo, hpa, if_neg h2]
        exact (Nat.le_succ n).trans (ih (a + 1) (n + 1) _)
    | resp r =>
      by_cases h429 : r.status_code = 429
      · simp only [retryGo, hpa, if_pos h429]
        exact (Nat.le_succ n).trans (ih (a + 1) (n + 1) _)
      · by_cases herr : errStatus r.status_code = true
        · by_cases h2 : a = M - 1
          · subst h2; simp [retryGo, hpa, h429, herr]
          · simp only [retryGo, hpa, if_neg h429, herr, if_pos, if_neg h2]
            exact (Nat.le_succ n).trans (ih (a + 1) (n + 1) _)
        · simp [retryGo, hpa, h429, herr]

theorem retryGo_posts_le (post : Nat → PostOutcome) (jitter : Nat → ℚ) (M : Nat) :
    ∀ fuel a n s, (retryGo post jitter M a fuel n s).posts ≤ n + fuel := by
  intro fuel
  induction fuel with
  | zero => intro a n s; simp [retryGo]
  | succ fuel ih =>
    intro a n s
    cases hpa : post a with
    | netExn e =>
      by_cases h2 : a = M - 1
      · subst h2; simp [retryGo, hpa]
      · simp only [retryGo, hpa, if_neg h2]
        exact (ih (a + 1) (n + 1) _).trans (by omega)
    | resp r =>
      by_cases h429 : r.status_code = 429
      · simp only [retryGo, hpa, if_pos h429]
        exact (ih (a + 1) (n + 1) _).trans (by omega)
      · by_cases herr : errStatus r.status_code = true
        · by_cases h2 : a = M - 1
          · subst h2; simp [retryGo, hpa, h429, herr]
          · simp only [retryGo, hpa, if_neg h429, herr, if_pos, if_neg h2]
            exact (ih (a + 1) (n + 1) _).trans (by omega)
        · simp [retryGo, hpa, h429, herr]

theorem retryGo_posts_succ (post : Nat → PostOutcome) (jitter : Nat → ℚ) (M fuel a n : Nat)
    (s : List ℚ) (hf : 1 ≤ fuel) : n + 1 ≤ (retryGo post jitter M a fuel n s).posts := by
  cases fuel with
  | zero => omega
  | succ fuel =>
    cases hpa : post a with
    | netExn e =>
      by_cases h2 : a = M - 1
      · subst h2; simp [retryGo, hpa]
      · simp only [retryGo, hpa, if_neg h2]
        exact retryGo_posts_ge post jitter M fuel (a + 1) (n + 1) _
    | resp r =>
      by_cases h429 : r.status_code = 429
      · simp only [retryGo, hpa, if_pos h429]
        exact retryGo_posts_ge post jitter M fuel (a + 1) (n + 1) _
      · by_cases herr : errStatus r.status_code = true
        · by_cases h2 : a = M - 1
          · subst h2; simp [retryGo, hpa, h429, herr]
          · simp only [retryGo, hpa, if_neg h429, herr, if_pos, if_neg h2]
            exact retryGo_posts_ge post jitter M fuel (a + 1) (n + 1) _
        · simp [retryGo, hpa, h429, herr]

/-! ### Behavior of the fence stripper and the page join -/

theorem pySplitAux_cons (sep : List Char) (f : Nat) (c : Char) (rest acc : List Char) :
    pySplitAux sep (f + 1) (c :: rest) acc =
      if 0 < sep.length ∧ sep.isPrefixOf (c :: rest) then
        acc.reverse :: pySplitAux sep f ((c :: rest).drop sep.length) []
      else pySplitAux sep f rest (c :: acc) := rfl

theorem pySplitAux_nil (sep : List Char) (f : Nat) (acc : List Char) :
    pySplitAux sep f [] acc = [acc.reverse] := by
  cases f <;> rfl

theorem pySplitAux_sep_step (f : Nat) (rest acc : List Char) :
    pySplitAux bt3 (f + 1) (bt3 ++ rest) acc = acc.reverse :: pySplitAux bt3 f rest [] := by
  have hpre : bt3.isPrefixOf (btChar :: btChar :: btChar :: rest) = true := by
    simp [show (btChar :: btChar :: btChar :: rest) = bt3 ++ rest from rfl,
      List.isPrefixOf_iff_prefix]
  show pySplitAux bt3 (f + 1) (btChar :: btChar :: btChar :: rest) acc = _
  rw [pySplitAux_cons, if_pos ⟨by simp [bt3], hpre⟩]
  rfl

theorem pySplitAux_nonsep_step (f : Nat) (c : Char) (rest acc : List Char) (hc : c ≠ btChar) :
    pySplitAux bt3 (f + 1) (c :: rest) acc = pySplitAux bt3 f rest (c :: acc) := by
  rw [pySplitAux_cons, if_neg ?_]
  rintro ⟨-, hp⟩
  have : btChar = c ∧ ([btChar, btChar] : List Char).isPrefixOf rest = true := by
    simpa [bt3, List.isPrefixOf] using hp
  exact hc this.1.symm

theorem pySplitAux_no_sep (mid : List Char) :
    ∀ fuel acc, (∀ c ∈ mid, c ≠ btChar) → mid.length + 3 ≤ fuel →
      pySplitAux bt3 fuel (mid ++ bt3) acc = (acc.reverse ++ mid) :: [[]] := by
  induction mid with
  | nil =>
    intro fuel acc _ hf
    obtain ⟨f, rfl⟩ : ∃ f, fuel = f + 1 := ⟨fuel - 1, by omega⟩
    rw [show ([] : List Char) ++ bt3 = bt3 ++ [] from by simp,
      pySplitAux_sep_step f [] acc, pySplitAux_nil]
    simp
  | cons c mid ih =>
    intro fuel acc hnb hf
    obtain ⟨f, rfl⟩ : ∃ f, fuel = f + 1 := ⟨fuel - 1, by omega⟩
    have hc : c ≠ btChar := hnb c (by simp)
    have hf' : mid.length + 3 ≤ f := by
      simp only [List.length_cons] at hf
      omega
    rw [show (c :: mid) ++ bt3 = c :: (mid ++ bt3) from rfl,
      pySplitAux_nonsep_step f c (mid ++ bt3) acc hc,
      ih f (c :: acc) (fun d hd => hnb d (by simp [hd])) hf']
    simp

theorem pySplit_fenced (mid : List Char) (hnb : ∀ c ∈ mid, c ≠ btChar) :
    pySplit bt3 (bt3 ++ (mid ++ bt3)) = [[], mid, []] := by
  have hlen : (bt3 ++ (mid ++ bt3)).length = mid.length + 5 + 1 := by
    simp [bt3]
  show pySplitAux bt3 (bt3 ++ (mid ++ bt3)).length (bt3 ++ (mid ++ bt3)) [] = _
  rw [hlen, pySplitAux_sep_step (mid.length + 5) (mid ++ bt3) [],
    pySplitAux_no_sep mid (mid.length + 5) [] hnb (by omega)]
  simp


theorem pyStrip_mem (l : List Char) (c : Char) (h : c ∈ pyStrip l) : c ∈ l := by
  simp only [pyStrip, List.mem_reverse] at h
  have h1 : c ∈ (l.dropWhile Char.isWhitespace).reverse :=
    (List.dropWhile_sublist _).mem h
  rw [List.mem_reverse] at h1
  exact (List.dropWhile_sublist _).mem h1

theorem ocr_join_spec : ∀ (ts : List (List Char)) (n : Nat),
    pyJoin nlnl ((List.enumFrom n ts).map fun p => pageHeader (p.1 + 1) ++ p.2) =
      specOcrFrom (n + 1) ts
  | [], _ => rfl
  | [_], _ => rfl
  | t :: u :: ts, n => by
    have ih := ocr_join_spec (u :: ts) (n + 1)
    show ((pageHeader (n + 1) ++ t) ++ nlnl) ++
        pyJoin nlnl ((List.enumFrom (n + 1) (u :: ts)).map fun p => pageHeader (p.1 + 1) ++ p.2) =
      ((pageHeader (n + 1) ++ t) ++ nlnl) ++ specOcrFrom (n + 1 + 1) (u :: ts)
    rw [ih]

/-! ### Claims about the retry wrapper -/

/-- Claim C9: every call to the retry wrapper with the fixed ceiling of 5
attempts issues at most 5 HTTP POST requests and then either returns a
successful response or raises an error; the model is a total function, so
no execution path loops beyond the ceiling. -/
theorem C9_retry_bounded (post : Nat → PostOutcome) (jitter : Nat → ℚ) :
    (make_api_request_with_retry post jitter 5).posts ≤ 5 ∧
      ((∃ r, (make_api_request_with_retry post jitter 5).outcome = .success r) ∨
        (∃ e, (make_api_request_with_retry post jitter 5).outcome = .failure e)) := by
  constructor
  · simpa [make_api_request_with_retry] using retryGo_posts_le post jitter 5 5 0 0 []
  · cases h : (make_api_request_with_retry post jitter 5).outcome with
    | success r => exact Or.inl ⟨r, rfl⟩
    | failure e => exact Or.inr ⟨e, rfl⟩

/-- Claim C1, counterexample: with a 500 on the first attempt and a 200 on
the second, the wrapper does not fail immediately on the 500: it issues a
second POST and returns the 200 response. `raise_for_status` raises a
`RequestException`, which the `except` clause catches and retries. -/
theorem C1_counterexample :
    (make_api_request_with_retry post500then200 jitter1 5).posts = 2 ∧
      (make_api_request_with_retry post500then200 jitter1 5).outcome = .success ⟨200, none⟩ := by
  decide

/-- Claim C1, amended: on a non-success non-429 status the wrapper retries
like a network failure: before the final attempt it sleeps
`2 ^ attempt + jitter` and issues a further POST, and only when the error
status arrives on the final attempt (attempt 4) is the underlying HTTP
error surfaced to the caller. -/
theorem C1_amended (post : Nat → PostOutcome) (jitter : Nat → ℚ) (a : Nat) (r : ApiResponse)
    (ha : a < 5) (hreach : ∀ i, i < a → continues 5 i (post i) = true)
    (hpa : post a = .resp r) (herr : errStatus r.status_code = true)
    (hne : r.status_code ≠ 429) :
    (a < 4 →
      (make_api_request_with_retry post jitter 5).sleeps[a]? =
          some ((2 : ℚ) ^ a + jitter a) ∧
        a + 2 ≤ (make_api_request_with_retry post jitter 5).posts) ∧
    (a = 4 →
      (make_api_request_with_retry post jitter 5).outcome =
          .failure (.httpError r.status_code) ∧
        (make_api_request_with_retry post jitter 5).posts = 5) := by
  obtain ⟨s, hs, hrun⟩ := retryGo_reach post jitter 5 a (by omega) hreach
  constructor
  · intro ha4
    have ha5 : a + 1 < 5 := by omega
    have hcont : continues 5 a (post a) = true := by
      simp [continues, hpa, herr, ha5]
    have hfull : make_api_request_with_retry post jitter 5 =
        retryGo post jitter 5 (a + 1) (5 - (a + 1)) (a + 1)
          (s ++ [sleepOf jitter a (post a)]) := by
      rw [hrun]
      exact retryGo_step post jitter 5 a a s (by omega) hcont
    have hsl : sleepOf jitter a (post a) = (2 : ℚ) ^ a + jitter a := by
      simp [sleepOf, hpa, hne]
    constructor
    · obtain ⟨t, ht⟩ := retryGo_sleeps_prefix post jitter 5 (5 - (a + 1)) (a + 1) (a + 1)
        (s ++ [sleepOf jitter a (post a)])
      rw [hfull, ← ht, List.getElem?_append,
        if_pos (show a < (s ++ [sleepOf jitter a (post a)]).length by simp [hs])]
      rw [show (s ++ [sleepOf jitter a (post a)])[a]? = some (sleepOf jitter a (post a)) from by
        rw [← hs]; exact List.getElem?_concat_length s _]
      rw [hsl]
    · rw [hfull]
      simpa using retryGo_posts_succ post jitter 5 (5 - (a + 1)) (a + 1) (a + 1) _ (by omega)
  · intro ha4
    subst ha4
    have hrun' : make_api_request_with_retry post jitter 5 = retryGo post jitter 5 4 1 4 s :=
      hrun
    rw [hrun', retryGo_last_http post jitter 5 4 4 s r (by norm_num) hpa hne herr]
    exact ⟨rfl, rfl⟩

/-- Claim C2, counterexample: when every attempt returns 429, the error the
wrapper raises is the generic `Exception("Max retries reached")`, not an
error carrying the final attempt's 429 response. -/
theorem C2_counterexample :
    (make_api_request_with_retry post429 jitter1 5).outcome = .failure .maxRetriesExn ∧
      (make_api_request_with_retry post429 jitter1 5).outcome ≠ .failure (.httpError 429) := by
  decide

/-- Claim C2, amended: after exhausting all 5 attempts, the error
propagated in the network-failure case is the last error encountered (the
transport exception of attempt 4), while in the all-429 case the wrapper
raises the generic max-retries exception instead of the final attempt's
error. -/
theorem C2_amended (post : Nat → PostOutcome) (jitter : Nat → ℚ) :
    (∀ msgs : Nat → String, (∀ i, i < 5 → post i = .netExn (msgs i)) →
      (make_api_request_with_retry post jitter 5).outcome = .failure (.netError (msgs 4))) ∧
    (∀ rs : Nat → ApiResponse, (∀ i, i < 5 → post i = .resp (rs i)) →
      (∀ i, i < 5 → (rs i).status_code = 429) →
      (make_api_request_with_retry post jitter 5).outcome = .failure .maxRetriesExn) := by
  constructor
  · intro msgs h
    obtain ⟨s, hs, hrun⟩ := retryGo_reach post jitter 5 4 (by omega)
      (fun i hi => by simp [continues, h i (by omega)]; omega)
    have hrun' : make_api_request_with_retry post jitter 5 = retryGo post jitter 5 4 1 4 s :=
      hrun
    rw [hrun', retryGo_last_netExn post jitter 5 4 4 s (msgs 4) (by norm_num) (h 4 (by omega))]
  · intro rs h h429
    obtain ⟨s, hs, hrun⟩ := retryGo_reach post jitter 5 5 (by omega)
      (fun i hi => by simp [continues, h i hi, h429 i hi])
    have hrun' : make_api_request_with_retry post jitter 5 = retryGo post jitter 5 5 0 5 s :=
      hrun
    rw [hrun', retryGo_exhaust]

/-- Claim C3, counterexample: when every attempt returns 429, the final
attempt (attempt 4, 0-based) also receives 429 and sleeps (five sleeps are
recorded), but no retry follows it: only 5 POSTs are issued and the wrapper
raises, so the claim's unconditional "then it retries" fails at attempt 4. -/
theorem C3_counterexample :
    (make_api_request_with_retry post429 jitter1 5).sleeps.length = 5 ∧
      (make_api_request_with_retry post429 jitter1 5).posts = 5 ∧
      (make_api_request_with_retry post429 jitter1 5).outcome = .failure .maxRetriesExn := by
  decide

/-- Claim C3, amended: an attempt `a` that receives 429 sleeps exactly
`hint * 2 ^ a + j` seconds, where `j` is that attempt's jitter draw in
`[0.5, 1.5)` and `hint` is the integer value of the `Retry-After` header
when present and numeric, else 5; it then retries — except on the final
attempt (a = 4), which sleeps and then raises the max-retries error
without retrying. -/
theorem C3_amended (post : Nat → PostOutcome) (jitter : Nat → ℚ) (a : Nat) (r : ApiResponse)
    (hj : (1 : ℚ) / 2 ≤ jitter a ∧ jitter a < 3 / 2)
    (ha : a < 5) (hreach : ∀ i, i < a → continues 5 i (post i) = true)
    (hpa : post a = .resp r) (h429 : r.status_code = 429) :
    (make_api_request_with_retry post jitter 5).sleeps[a]? =
        some ((retry_after_wait r : ℚ) * 2 ^ a + jitter a) ∧
      (1 : ℚ) / 2 ≤ jitter a ∧ jitter a < 3 / 2 ∧
      (∀ s v, r.retry_after = some s → pyInt? s = some v → retry_after_wait r = v) ∧
      (r.retry_after = none → retry_after_wait r = 5) ∧
      (∀ s, r.retry_after = some s → pyInt? s = none → retry_after_wait r = 5) ∧
      (a < 4 → a + 2 ≤ (make_api_request_with_retry post jitter 5).posts) ∧
      (a = 4 → (make_api_request_with_retry post jitter 5).posts = 5 ∧
        (make_api_request_with_retry post jitter 5).outcome = .failure .maxRetriesExn) := by
  obtain ⟨s, hs, hrun⟩ := retryGo_reach post jitter 5 a (by omega) hreach
  have hcont : continues 5 a (post a) = true := by simp [continues, hpa, h429]
  have hfull : make_api_request_with_retry post jitter 5 =
      retryGo post jitter 5 (a + 1) (5 - (a + 1)) (a + 1)
        (s ++ [sleepOf jitter a (post a)]) := by
    rw [hrun]
    exact retryGo_step post jitter 5 a a s (by omega) hcont
  have hsl : sleepOf jitter a (post a) = (retry_after_wait r : ℚ) * 2 ^ a + jitter a := by
    simp [sleepOf, hpa, h429]
  refine ⟨?_, hj.1, hj.2, ?_, ?_, ?_, ?_, ?_⟩
  · obtain ⟨t, ht⟩ := retryGo_sleeps_prefix post jitter 5 (5 - (a + 1)) (a + 1) (a + 1)
      (s ++ [sleepOf jitter a (post a)])
    rw [hfull, ← ht, List.getElem?_append,
      if_pos (show a < (s ++ [sleepOf jitter a (post a)]).length by simp [hs])]
    rw [show (s ++ [sleepOf jitter a (post a)])[a]? = some (sleepOf jitter a (post a)) from by
      rw [← hs]; exact List.getElem?_concat_length s _]
    rw [hsl]
  · intro hdr v hhdr hv
    simp [retry_after_wait, hhdr, hv]
  · intro hhdr
    simp [retry_after_wait, hhdr]
  · intro hdr hhdr hv
    simp [retry_after_wait, hhdr, hv]
  · intro ha4
    rw [hfull]
    simpa using retryGo_posts_succ post jitter 5 (5 - (a + 1)) (a + 1) (a + 1) _ (by omega)
  · intro ha4
    subst ha4
    have hfull' : make_api_request_with_retry post jitter 5 =
        retryGo post jitter 5 5 0 5 (s ++ [sleepOf jitter 4 (post 4)]) := hfull
    rw [hfull', retryGo_exhaust]
    exact ⟨rfl, rfl⟩

/-! ### Claims about response post-processing and text assembly -/

/-- Claim C5: a chat-model response that consists of a triple-backtick
fenced block, optionally carrying a `csv` tag right after the opening
fence, is unwrapped by the CSV-reformatting step to the fence's inner
content with the tag removed and surrounding whitespace stripped, and no
backtick (hence no fencing) remains in the returned body. The last
hypothesis resolves the ambiguous decomposition of an untagged body that
itself starts with the letters `csv`: such a string is covered by its
tagged decomposition. -/
theorem C5_fence_stripped (tag inner : List Char)
    (htag : tag = [] ∨ tag = csvTag)
    (hnb : ∀ c ∈ inner, c ≠ btChar)
    (hcsv : tag = csvTag ∨ csvTag.isPrefixOf inner = false) :
    text_to_csv (bt3 ++ (tag ++ inner) ++ bt3) = pyStrip inner ∧
      ∀ c ∈ text_to_csv (bt3 ++ (tag ++ inner) ++ bt3), c ≠ btChar := by
  have hmid : ∀ c ∈ tag ++ inner, c ≠ btChar := by
    intro c hc
    rcases List.mem_append.mp hc with h | h
    · rcases htag with rfl | rfl
      · simp at h
      · simp only [csvTag, List.mem_cons, List.not_mem_nil, or_false] at h
        rcases h with rfl | rfl | rfl <;> decide
    · exact hnb c h
  have hinf : bt3 <:+: bt3 ++ (tag ++ inner) ++ bt3 :=
    ⟨[], (tag ++ inner) ++ bt3, by simp [List.append_assoc]⟩
  have hsplit : pySplit bt3 (bt3 ++ (tag ++ inner) ++ bt3) = [[], tag ++ inner, []] := by
    rw [List.append_assoc]
    exact pySplit_fenced (tag ++ inner) hmid
  have heq : text_to_csv (bt3 ++ (tag ++ inner) ++ bt3) = pyStrip inner := by
    rw [text_to_csv, if_pos hinf, hsplit]
    rcases htag with rfl | rfl
    · rcases hcsv with h | h
      · simp [csvTag] at h
      · simp [h]
    · have hp : csvTag.isPrefixOf (csvTag ++ inner) = true := by
        simp [List.isPrefixOf_iff_prefix]
      simp only [List.getD_cons_succ, List.getD_cons_zero, hp, if_true]
      rw [show (csvTag ++ inner).drop 3 = inner from List.drop_left csvTag inner]
  refine ⟨heq, ?_⟩
  intro c hc
  rw [heq] at hc
  exact hnb c (pyStrip_mem inner c hc)

/-- Claim C8: the extracted-text result of the vision-extraction stage is
the per-page text blocks in input order, each preceded by the header naming
its 1-based page number, joined into one string — the enumerate-and-join of
the source equals the direct recursive description of the spec. -/
theorem C8_page_order (ts : List (List Char)) :
    ocr_with_openrouter ts = specOcrFrom 1 ts := by
  have h := ocr_join_spec ts 0
  simpa [ocr_with_openrouter, List.enum] using h

/-! ### Claims about the endpoint -/

/-- Claim C4, counterexample: a `.pdf`-named upload with empty byte content
is not rejected with a 400 at intake: the empty bytes are handed to the
rasterizer, and when the rasterizer raises, the endpoint answers 500 with
the rasterizer's message. -/
theorem C4_counterexample :
    pdf_to_csv rasFail ocrOk toCsvOk reqEmptyContent = .errorJson 500 msgBoomRas ∧
      (pdf_to_csv rasFail ocrOk toCsvOk reqEmptyContent).is400error = false := by
  constructor
  · rfl
  · rfl

/-- Claim C4, amended: intake validates only the filename (presence,
non-empty name, `.pdf` suffix); file content is never checked for
emptiness. An upload with empty content is passed to the rasterizer, and
if rasterization fails with message `e` the response is a 500 carrying
`e`, not a 400. -/
theorem C4_amended {α : Type} (ras : List Nat → Except String α)
    (ocrF : α → Except String (List Char)) (csvF : List Char → Except String (List Char))
    (fname : List Char) (e : String) (hn : fname ≠ [])
    (hs : pdfSuffix.isSuffixOf (fname.map Char.toLower) = true)
    (hras : ras [] = .error e) :
    pdf_to_csv ras ocrF csvF ⟨some ⟨fname, []⟩⟩ = .errorJson 500 e ∧
      (pdf_to_csv ras ocrF csvF ⟨some ⟨fname, []⟩⟩).is400error = false := by
  constructor
  · simp [pdf_to_csv, hn, hs, hras]
  · simp [pdf_to_csv, hn, hs, hras, HttpResponse.is400error]

/-- Claim C6: when a pipeline stage fails — rasterization, vision
extraction, or reformatting — on a request that passed intake, the endpoint
answers 500 with a JSON body whose only detail is that stage's exception
message; by construction of `HttpResponse.errorJson` no extracted page text
is part of the response. -/
theorem C6_exception_to_500 {α : Type} (ras : List Nat → Except String α)
    (ocrF : α → Except String (List Char)) (csvF : List Char → Except String (List Char))
    (f : UploadedFile) (hn : f.filename ≠ [])
    (hs : pdfSuffix.isSuffixOf (f.filename.map Char.toLower) = true) :
    (∀ e, ras f.content = .error e →
      pdf_to_csv ras ocrF csvF ⟨some f⟩ = .errorJson 500 e) ∧
    (∀ imgs e, ras f.content = .ok imgs → ocrF imgs = .error e →
      pdf_to_csv ras ocrF csvF ⟨some f⟩ = .errorJson 500 e) ∧
    (∀ imgs txt e, ras f.content = .ok imgs → ocrF imgs = .ok txt → csvF txt = .error e →
      pdf_to_csv ras ocrF csvF ⟨some f⟩ = .errorJson 500 e) := by
  refine ⟨?_, ?_, ?_⟩
  · intro e he
    simp [pdf_to_csv, hn, hs, he]
  · intro imgs e h1 h2
    simp [pdf_to_csv, hn, hs, h1, h2]
  · intro imgs txt e h1 h2 h3
    simp [pdf_to_csv, hn, hs, h1, h2, h3]

/-- Claim C7: a POST without a `file` field, with an empty filename, or
with a filename failing the (case-insensitive) `.pdf` suffix check yields a
400 JSON error, and the response does not depend on the rasterizer or the
outbound-call stages at all — no rasterization and no outbound API call
influences it. -/
theorem C7_client_errors {α β : Type} (ras : List Nat → Except String α)
    (ocrF : α → Except String (List Char)) (csvF : List Char → Except String (List Char))
    (ras' : List Nat → Except String β) (ocrF' : β → Except String (List Char))
    (csvF' : List Char → Except String (List Char)) (req : HttpRequest)
    (h : req.file = none ∨
      ∃ f, req.file = some f ∧ (f.filename = [] ∨
        pdfSuffix.isSuffixOf (f.filename.map Char.toLower) = false)) :
    (pdf_to_csv ras ocrF csvF req).is400error = true ∧
      pdf_to_csv ras ocrF csvF req = pdf_to_csv ras' ocrF' csvF' req := by
  rcases h with h | ⟨f, hf, hcase⟩
  · simp [pdf_to_csv, h, HttpResponse.is400error]
  · by_cases hemp : f.filename = []
    · simp [pdf_to_csv, hf, hemp, HttpResponse.is400error]
    · rcases hcase with he | hsuf
      · exact absurd he hemp
      · simp [pdf_to_csv, hf, hemp, hsuf, HttpResponse.is400error]

/-- Claim C10: the `.pdf` suffix check lowercases the filename first, so a
filename ending in any letter-case variant of `.pdf` is never rejected
with the "File must be a PDF" 400 error. -/
theorem C10_case_insensitive {α : Type} (ras : List Nat → Except String α)
    (ocrF : α → Except String (List Char)) (csvF : List Char → Except String (List Char))
    (stem : List Char) (content : List Nat) (c2 c3 c4 : Char)
    (h2 : c2 = 'p' ∨ c2 = 'P') (h3 : c3 = 'd' ∨ c3 = 'D') (h4 : c4 = 'f' ∨ c4 = 'F') :
    pdf_to_csv ras ocrF csvF ⟨some ⟨stem ++ ['.', c2, c3, c4], content⟩⟩ ≠
      .errorJson 400 msgNotPdf := by
  have hn : stem ++ ['.', c2, c3, c4] ≠ [] := by simp
  have hlow : (stem ++ ['.', c2, c3, c4]).map Char.toLower =
      stem.map Char.toLower ++ ['.', 'p', 'd', 'f'] := by
    rw [List.map_append]
    congr 1
    rcases h2 with rfl | rfl <;> rcases h3 with rfl | rfl <;> rcases h4 with rfl | rfl <;> decide
  have hs : pdfSuffix.isSuffixOf ((stem ++ ['.', c2, c3, c4]).map Char.toLower) = true := by
    rw [hlow]
    simp only [List.isSuffixOf_iff_suffix, pdfSuffix]
    exact List.suffix_append _ _
  simp only [pdf_to_csv]
  rw [if_neg hn, if_pos hs]
  cases hras : ras content with
  | error e => simp
  | ok imgs =>
    cases hocr : ocrF imgs with
    | error e => simp [hocr]
    | ok txt =>
      cases hcsv : csvF txt with
      | error e => simp [hocr, hcsv]
      | ok csvc => simp [hocr, hcsv]

/-! ### Witnesses: the claim theorems applied at concrete inputs -/

/-- Witness for `C1_amended` at attempt 0 of a 500-then-200 transport. -/
theorem C1_amended_witness :
    (errStatus 500 = true ∧ (500 : Nat) ≠ 429 ∧ (0 : Nat) < 5) ∧
    ((make_api_request_with_retry post500then200 jitter1 5).sleeps[0]? =
        some ((2 : ℚ) ^ 0 + jitter1 0) ∧
      0 + 2 ≤ (make_api_request_with_retry post500then200 jitter1 5).posts) :=
  ⟨⟨by decide, by decide, by decide⟩,
    (C1_amended post500then200 jitter1 0 ⟨500, none⟩ (by decide)
      (fun i hi => absurd hi (Nat.not_lt_zero i)) rfl (by decide) (by decide)).1 (by decide)⟩

/-- Witness for `C2_amended`: an always-failing transport propagates the
final message, an always-429 transport ends in the generic exception. -/
theorem C2_amended_witness :
    (postNet 4 = PostOutcome.netExn (postNetMsgs 4) ∧
      post429 4 = PostOutcome.resp ⟨429, none⟩) ∧
    ((make_api_request_with_retry postNet jitter1 5).outcome =
        .failure (.netError (postNetMsgs 4)) ∧
      (make_api_request_with_retry post429 jitter1 5).outcome = .failure .maxRetriesExn) :=
  ⟨⟨rfl, rfl⟩,
    ⟨(C2_amended postNet jitter1).1 postNetMsgs (fun _ _ => rfl),
      (C2_amended post429 jitter1).2 (fun _ => ⟨429, none⟩) (fun _ _ => rfl) (fun _ _ => rfl)⟩⟩

/-- Witness for `C3_amended` at attempt 0 of an always-429 transport. -/
theorem C3_amended_witness :
    ((1 : ℚ) / 2 ≤ jitter1 0 ∧ jitter1 0 < 3 / 2 ∧ (0 : Nat) < 5 ∧
      post429 0 = PostOutcome.resp ⟨429, none⟩) ∧
    (make_api_request_with_retry post429 jitter1 5).sleeps[0]? =
      some ((retry_after_wait ⟨429, none⟩ : ℚ) * 2 ^ 0 + jitter1 0) :=
  ⟨⟨by norm_num [jitter1], by norm_num [jitter1], by decide, rfl⟩,
    (C3_amended post429 jitter1 0 ⟨429, none⟩
      ⟨by norm_num [jitter1], by norm_num [jitter1]⟩ (by decide)
      (fun i hi => absurd hi (Nat.not_lt_zero i)) rfl rfl).1⟩

/-- Witness for `C4_amended` on the `"a.pdf"` upload with empty bytes. -/
theorem C4_amended_witness :
    (fnamePdf ≠ [] ∧ pdfSuffix.isSuffixOf (fnamePdf.map Char.toLower) = true ∧
      rasFail [] = Except.error msgBoomRas) ∧
    (pdf_to_csv rasFail ocrOk toCsvOk ⟨some ⟨fnamePdf, []⟩⟩ = .errorJson 500 msgBoomRas ∧
      (pdf_to_csv rasFail ocrOk toCsvOk ⟨some ⟨fnamePdf, []⟩⟩).is400error = false) :=
  ⟨⟨by decide, by decide, rfl⟩,
    C4_amended rasFail ocrOk toCsvOk fnamePdf msgBoomRas (by decide) (by decide) rfl⟩

/-- Witness for `C5_fence_stripped` on a `csv`-tagged fenced block. -/
theorem C5_fence_stripped_witness :
    ((csvTag = [] ∨ csvTag = csvTag) ∧
      (∀ c ∈ ('\n' :: 'a' :: ',' :: 'b' :: []), c ≠ btChar)) ∧
    (text_to_csv (bt3 ++ (csvTag ++ ('\n' :: 'a' :: ',' :: 'b' :: [])) ++ bt3) =
        pyStrip ('\n' :: 'a' :: ',' :: 'b' :: []) ∧
      ∀ c ∈ text_to_csv (bt3 ++ (csvTag ++ ('\n' :: 'a' :: ',' :: 'b' :: [])) ++ bt3),
        c ≠ btChar) :=
  ⟨⟨Or.inr rfl, by decide⟩,
    C5_fence_stripped csvTag ('\n' :: 'a' :: ',' :: 'b' :: []) (Or.inr rfl) (by decide)
      (Or.inl rfl)⟩

/-- Witness for `C6_exception_to_500` with a failing rasterizer. -/
theorem C6_exception_to_500_witness :
    (fnamePdf ≠ [] ∧ pdfSuffix.isSuffixOf (fnamePdf.map Char.toLower) = true ∧
      rasFail [] = Except.error msgBoomRas) ∧
    pdf_to_csv rasFail ocrOk toCsvOk ⟨some ⟨fnamePdf, []⟩⟩ = .errorJson 500 msgBoomRas :=
  ⟨⟨by decide, by decide, rfl⟩,
    (C6_exception_to_500 rasFail ocrOk toCsvOk ⟨fnamePdf, []⟩ (by decide) (by decide)).1
      msgBoomRas rfl⟩

/-- Witness for `C7_client_errors` on a request with no file field,
compared across two different oracle triples. -/
theorem C7_client_errors_witness :
    ((⟨none⟩ : HttpRequest).file = none) ∧
    ((pdf_to_csv rasOk ocrOk toCsvOk ⟨none⟩).is400error = true ∧
      pdf_to_csv rasOk ocrOk toCsvOk ⟨none⟩ = pdf_to_csv rasFail ocrFail toCsvFail ⟨none⟩) :=
  ⟨rfl, C7_client_errors rasOk ocrOk toCsvOk rasFail ocrFail toCsvFail ⟨none⟩ (Or.inl rfl)⟩

/-- Witness for `C10_case_insensitive` on the filename `"a.PDF"`. -/
theorem C10_case_insensitive_witness :
    ((('P' : Char) = 'p' ∨ ('P' : Char) = 'P') ∧
      (('D' : Char) = 'd' ∨ ('D' : Char) = 'D') ∧
      (('F' : Char) = 'f' ∨ ('F' : Char) = 'F')) ∧
    pdf_to_csv rasOk ocrOk toCsvOk ⟨some ⟨['a'] ++ ['.', 'P', 'D', 'F'], []⟩⟩ ≠
      .errorJson 400 msgNotPdf :=
  ⟨⟨Or.inr rfl, Or.inr rfl, Or.inr rfl⟩,
    C10_case_insensitive rasOk ocrOk toCsvOk ['a'] [] 'P' 'D' 'F' (Or.inr rfl) (Or.inr rfl)
      (Or.inr rfl)⟩
